import Mathlib

/-!
Shallow embedding of the `loom` execution core (crate `loom-core`), used to
verify the claims of the natural-language specification against the code.

Modelling conventions:
* Rust `i64` / `i32` integers are modelled as `Int` (no claim exercises
  integer overflow); `usize` casts are taken modulo `2^64` as on a 64-bit
  target.
* Rust `f64` floats are modelled as `Rat`; the only float facts used by the
  claims are the `b == 0.0` zero test of the `Divide` arm, on which the two
  representations agree (every IEEE zero compares equal to `0.0`).
* `HashMap` is modelled as an association list with first-match lookup
  (`List.lookup`) and overwrite-or-append insertion; `HashMap` iteration
  order is unspecified in Rust, the list order stands in for it.
* `serde_json::Value` payloads are modelled by their rendered text, the only
  way the embedded code observes them.
* Trait objects (`GlobalInterceptor`, `DirectiveInterceptor`,
  `ExecutorInterceptor`) are modelled as records whose `run` field is the
  `intercept` method; the default-method bodies of `should_activate` and
  `evaluate_condition` are embedded as plain functions.
* Wall-clock time (`TimeWindow`), OS path basename (`Workspace`) and process
  spawning are external effects; they enter as explicit parameters.
-/

namespace Loom

/-- `types.rs` `Position` (line, column, file). -/
structure Position where
  line : Nat
  column : Nat
  file : Option String
deriving DecidableEq, Repr

/-- `Default for Position`: line 1, column 1, no file. -/
def Position.default : Position := ⟨1, 1, none⟩

/-- `types.rs` `DefinitionKind`. -/
inductive DefinitionKind where
  | recipe
  | job
  | pipeline
  | schedule
deriving DecidableEq, Repr

/-- `error.rs` `UndefinedKind`. -/
inductive UndefinedKind where
  | recipe
  | job
  | pipeline
  | variable
  | function
  | enumKind
  | enumVariant
  | importKind
deriving DecidableEq, Repr

/-- `scope.rs` `ExecutionScope`. -/
inductive ExecutionScope where
  | command
  | block
  | pipeline
  | job
  | stage
  | schedule
  | definition
deriving DecidableEq, Repr

/-- `types.rs` `ParallelizationKind`. -/
inductive ParallelizationKind where
  | parallel (maxThread : Nat)
  | sequential
deriving DecidableEq, Repr

/-- `types.rs` `LiteralValue`. `Number` is `i64` (as `Int`), `Float` is `f64`
(as `Rat`), `Json` carries the rendered text of the `serde_json::Value`. -/
inductive LiteralValue where
  | string (v : String)
  | number (v : Int)
  | float (v : Rat)
  | boolean (v : Bool)
  | array (v : List LiteralValue)
  | json (v : String)
deriving Repr

mutual
/-- Structural equality of literals: the derived `PartialEq` of
`LiteralValue` (`a == b` in `evaluate_literal_binary_op`). -/
def LiteralValue.beq : LiteralValue → LiteralValue → Bool
  | .string a, .string b => a == b
  | .number a, .number b => a == b
  | .float a, .float b => a == b
  | .boolean a, .boolean b => a == b
  | .array a, .array b => LiteralValue.listBeq a b
  | .json a, .json b => a == b
  | _, _ => false

/-- Elementwise `PartialEq` of `Vec<LiteralValue>`. -/
def LiteralValue.listBeq : List LiteralValue → List LiteralValue → Bool
  | [], [] => true
  | a :: as', b :: bs' => LiteralValue.beq a b && LiteralValue.listBeq as' bs'
  | _, _ => false
end

/-- `{:?}` rendering of `std::mem::discriminant` on `LiteralValue`
(implementation-defined in Rust; modelled as the constructor index). -/
def LiteralValue.discriminantDebug : LiteralValue → String
  | .string _ => "Discriminant(0)"
  | .number _ => "Discriminant(1)"
  | .float _ => "Discriminant(2)"
  | .boolean _ => "Discriminant(3)"
  | .array _ => "Discriminant(4)"
  | .json _ => "Discriminant(5)"

/-- `ast.rs` `BinaryOperator`. -/
inductive BinaryOperator where
  | add | subtract | multiply | divide | modulo
  | equal | notEqual | less | lessEqual | greater | greaterEqual
  | and | or
  | contains | startsWith | endsWith
  | is | isNot
deriving DecidableEq, Repr

/-- `{:?}` rendering of a `BinaryOperator`. -/
def BinaryOperator.debugStr : BinaryOperator → String
  | .add => "Add" | .subtract => "Subtract" | .multiply => "Multiply"
  | .divide => "Divide" | .modulo => "Modulo"
  | .equal => "Equal" | .notEqual => "NotEqual" | .less => "Less"
  | .lessEqual => "LessEqual" | .greater => "Greater"
  | .greaterEqual => "GreaterEqual"
  | .and => "And" | .or => "Or"
  | .contains => "Contains" | .startsWith => "StartsWith"
  | .endsWith => "EndsWith"
  | .is => "Is" | .isNot => "IsNot"

/-- `ast.rs` `UnaryOperator`. -/
inductive UnaryOperator where
  | not
  | minus
deriving DecidableEq, Repr

/-- `{:?}` rendering of a `UnaryOperator`. -/
def UnaryOperator.debugStr : UnaryOperator → String
  | .not => "Not"
  | .minus => "Minus"

mutual
/-- `ast.rs` `Expression`. -/
inductive Expression where
  | literal (v : LiteralValue)
  | var (name : String)
  | functionCall (name : String) (args : List Expression)
  | indexAccess (object : Expression) (index : Expression)
  | binaryOp (left : Expression) (operator : BinaryOperator) (right : Expression)
  | unaryOp (operator : UnaryOperator) (operand : Expression)
  | interpolation (parts : List InterpolationPart)
  | enumAccess (enumName : String) (variant : String)
deriving Repr

/-- `ast.rs` `InterpolationPart`. -/
inductive InterpolationPart where
  | text (t : String)
  | expression (e : Expression)
deriving Repr
end

/-- `definition/mod.rs` `ArgDefinition`. -/
inductive ArgDefinition where
  | positional (e : Expression)
  | named (name : String) (value : Expression)
deriving Repr

/-- `ast.rs` `DirectiveCall`. -/
structure DirectiveCall where
  name : String
  args : List ArgDefinition
  position : Position
deriving Repr

/-- `ast.rs` `Statement`. -/
inductive Statement where
  | command (parts : List Expression) (directives : List DirectiveCall)
  | call (name : String) (args : List Expression) (directives : List DirectiveCall)
deriving Repr

/-- `ast.rs` `Block`. -/
structure Block where
  statements : List Statement
  directives : List DirectiveCall
  label : List Expression
deriving Repr

/-- `types.rs` `ParameterDefinition`. -/
structure ParameterDefinition where
  name : String
  paramType : Option String
  defaultValue : Option Expression
  required : Bool
deriving Repr

/-- `types.rs` `Signature`. -/
structure Signature where
  name : String
  parameters : List ParameterDefinition
deriving Repr

/-- `ast.rs` `Definition`. -/
structure Definition where
  kind : DefinitionKind
  signature : Signature
  body : List Block
  directives : List DirectiveCall
  position : Position
  moduleIndex : Nat
deriving Repr

/-- `types.rs` `LoomValue`. -/
inductive LoomValue where
  | literal (v : LiteralValue)
  | expression (e : Expression)
  | empty
deriving Repr

/-- `types.rs` `LoomValue::type_name`. -/
def LoomValue.typeName : LoomValue → String
  | .literal _ => "literal"
  | .expression _ => "expression"
  | .empty => "empty"

/-- `types.rs` `EnumDef`; the `variants` map is an association list. -/
structure EnumDef where
  name : String
  variants : List (String × String)
deriving Repr

/-- `error.rs` `InterceptorError`. -/
inductive InterceptorError where
  | directive (name : String) (message : String)
  | global (name : String) (message : String)
  | execution (scope : ExecutionScope) (message : String)
  | commandExecution (command : String) (message : String) (exitCode : Option Int)
  | definitionResolution (name : String) (message : String)
  | parameterValidation (name : String) (message : String)
  | chainExecution (message : String)
  | contextAccess (message : String)
  | pipelineExecution (name : String) (stage : Option String) (message : String)
  | jobExecution (name : String) (message : String)
deriving DecidableEq, Repr

/-- `error.rs` `LoomError`. The `expression` and `notImplemented`
constructors are Modelled from the spec: `ast.rs` calls
`LoomError::expression(kind, message, position)` and
`LoomError::not_implemented(feature, detail)`, but no definition of those
constructors exists under `src/`; the spec's error taxonomy (§7) lists
"Expression (evaluator-local, tagged by expression kind)" and
"NotImplemented", which these two constructors embed. -/
inductive LoomError where
  | parseError (message : String) (position : Position)
  | validationError (message : String) (position : Option Position)
  | executionError (message : String) (position : Option Position) (cause : Option LoomError)
  | importError (message : String) (importPath : String) (position : Position)
  | typeError (expected : String) (found : String) (position : Position)
  | undefinedError (name : String) (kind : UndefinedKind) (position : Position)
  | ioError (message : String) (path : Option String)
  | configError (message : String) (path : Option String)
  | pluginError (message : String) (pluginName : String)
  | systemError (message : String) (exitCode : Option Int) (command : Option String)
  | interceptorError (error : InterceptorError) (interceptorStack : List String)
  | expression (kind : String) (message : String) (position : Position)
  | notImplemented (feature : String) (detail : String)
deriving Repr

/-- `LoomError::execution`. -/
def LoomError.execution (message : String) : LoomError :=
  .executionError message none none

/-- `LoomError::undefined`. -/
def LoomError.undefined (name : String) (kind : UndefinedKind) (position : Position) : LoomError :=
  .undefinedError name kind position

/-- `LoomError::definition_resolution`. -/
def LoomError.definition_resolution (name : String) (message : String) : LoomError :=
  .interceptorError (.definitionResolution name message) []

/-- `LoomResult<T>`. -/
abbrev LoomResult (α : Type) := Except LoomError α

/-- `Display for UndefinedKind` (`error.rs`). -/
def UndefinedKind.display : UndefinedKind → String
  | .recipe => "recipe"
  | .job => "job"
  | .pipeline => "pipeline"
  | .variable => "variable"
  | .function => "function"
  | .enumKind => "enum"
  | .enumVariant => "enum variant"
  | .importKind => "import"

/-- `{:?}` rendering of an `ExecutionScope` (derived `Debug`). -/
def ExecutionScope.debugStr : ExecutionScope → String
  | .command => "Command"
  | .block => "Block"
  | .pipeline => "Pipeline"
  | .job => "Job"
  | .stage => "Stage"
  | .schedule => "Schedule"
  | .definition => "Definition"

/-- The trailing interceptor-stack sentence shared by the
`InterceptorError` arms of `Display for LoomError`. -/
def interceptorStackSuffix (stack : String) : String :=
  ".\nThe following interceptor have been already been executed: [ " ++ stack ++ " ]"

/-- `Display for LoomError` restricted to the `InterceptorError` payload
(`error.rs`, the inner `match error` of the `InterceptorError` arm);
`stack` is the comma-joined interceptor stack. -/
def InterceptorError.display (stack : String) : InterceptorError → String
  | .directive name message =>
      "Interceptor error: While executing the Directive Interceptor '" ++ name ++
        "' the following error occured '" ++ message ++ "'" ++ interceptorStackSuffix stack
  | .global name message =>
      "Interceptor error: While executing the Global Interceptor '" ++ name ++
        "' the following error occured '" ++ message ++ "'" ++ interceptorStackSuffix stack
  | .execution scope message =>
      "Interceptor error: While executing the Execution Interceptor (scope) '" ++
        scope.debugStr ++ "' the following error occured '" ++ message ++ "'" ++
        interceptorStackSuffix stack
  | .commandExecution command message exitCode =>
      match exitCode with
      | some code =>
          "Command execution error (exit code " ++ toString code ++ "): '" ++ command ++
            "' - " ++ message ++ interceptorStackSuffix stack
      | none =>
          "Command execution error: '" ++ command ++ "' - " ++ message ++
            interceptorStackSuffix stack
  | .definitionResolution name message =>
      "Definition resolution error: '" ++ name ++ "' - " ++ message ++
        interceptorStackSuffix stack
  | .parameterValidation name message =>
      "Parameter validation error: '" ++ name ++ "' - " ++ message ++
        interceptorStackSuffix stack
  | .chainExecution message =>
      "Chain execution error: " ++ message ++ interceptorStackSuffix stack
  | .contextAccess message =>
      "Context access error: " ++ message ++ interceptorStackSuffix stack
  | .pipelineExecution name stage message =>
      match stage with
      | some stageName =>
          "Pipeline execution error in pipeline '" ++ name ++ "' at stage '" ++
            stageName ++ "': " ++ message ++ interceptorStackSuffix stack
      | none =>
          "Pipeline execution error in pipeline '" ++ name ++ "': " ++ message ++
            interceptorStackSuffix stack
  | .jobExecution name message =>
      "Job execution error in job '" ++ name ++ "': " ++ message ++
        interceptorStackSuffix stack

/-- `Display for LoomError` (`error.rs`). The `expression` and
`notImplemented` arms are Modelled from the spec (their `Display` code is
not under `src/`); they render as the spec's taxonomy names. -/
def LoomError.display : LoomError → String
  | .parseError message position =>
      "Parse error at " ++ toString position.line ++ ":" ++ toString position.column ++
        ": " ++ message
  | .validationError message position =>
      match position with
      | some pos =>
          "Validation error at " ++ toString pos.line ++ ":" ++ toString pos.column ++
            ": " ++ message
      | none => "Validation error: " ++ message
  | .executionError message position cause =>
      (match position with
       | some pos =>
           "Execution error at " ++ toString pos.line ++ ":" ++ toString pos.column ++
             ": " ++ message
       | none => "Execution error: " ++ message) ++
      (match cause with
       | some c => " (caused by: " ++ LoomError.display c ++ ")"
       | none => "")
  | .importError message importPath position =>
      "Import error at " ++ toString position.line ++ ":" ++ toString position.column ++
        " importing '" ++ importPath ++ "': " ++ message
  | .typeError expected found position =>
      "Type error at " ++ toString position.line ++ ":" ++ toString position.column ++
        ": expected " ++ expected ++ ", found " ++ found
  | .undefinedError name kind position =>
      "Undefined " ++ kind.display ++ " '" ++ name ++ "' at " ++
        toString position.line ++ ":" ++ toString position.column
  | .ioError message path =>
      match path with
      | some p => "I/O error on '" ++ p ++ "': " ++ message
      | none => "I/O error: " ++ message
  | .configError message path =>
      match path with
      | some p => "Configuration error in '" ++ p ++ "': " ++ message
      | none => "Configuration error: " ++ message
  | .pluginError message pluginName =>
      "Plugin error in '" ++ pluginName ++ "': " ++ message
  | .systemError message exitCode command =>
      match exitCode, command with
      | some code, some cmd =>
          "System error (exit code " ++ toString code ++ "): " ++ cmd ++ " - " ++ message
      | _, _ => "System error: " ++ message
  | .interceptorError error interceptorStack =>
      error.display (String.intercalate ", " interceptorStack)
  | .expression kind message _position =>
      "Expression error (" ++ kind ++ "): " ++ message
  | .notImplemented feature detail =>
      "Not implemented (" ++ feature ++ "): " ++ detail

/-- `context.rs` `Module`; the id-keyed `HashMap`s are association lists
with `Nat` standing for `uuid::Uuid`. -/
structure Module where
  definitions : List (Nat × Definition)
  enums : List (Nat × EnumDef)
  vars : List (String × LoomValue)
deriving Repr

/-- `context.rs` `LoomContext` (the import-dependency graph, untouched by
the embedded operations, is omitted). -/
structure LoomContext where
  modules : List (Nat × Module)
  definitionsRef : List (String × Nat × Nat)
  enumsDefRef : List (String × Nat × Nat)
deriving Repr

/-- `LoomContext::find_definition`. -/
def LoomContext.find_definition (lc : LoomContext) (name : String) : Option Definition :=
  (lc.definitionsRef.lookup name).bind fun index =>
    (lc.modules.lookup index.1).bind fun m => m.definitions.lookup index.2

/-- `LoomContext::find_enum`. -/
def LoomContext.find_enum (lc : LoomContext) (name : String) : Option EnumDef :=
  (lc.enumsDefRef.lookup name).bind fun index =>
    (lc.modules.lookup index.1).bind fun m => m.enums.lookup index.2

/-- `LoomContext::get_variables`. -/
def LoomContext.get_variables (lc : LoomContext) (name : String) :
    Option (List (String × LoomValue)) :=
  (lc.definitionsRef.lookup name).bind fun index =>
    (lc.modules.lookup index.1).map fun m => m.vars

/-- `interceptor/context.rs` `ExecutionContext`. -/
structure ExecutionContext where
  vars : List (String × LoomValue)
  envVars : List (String × String)
  workingDir : Option String
  dryRun : Bool
  scope : ExecutionScope
  parallelizationKind : ParallelizationKind
  metadata : List (String × String)
deriving Repr

/-- `ExecutionContext::get_variable`. -/
def ExecutionContext.get_variable (ctx : ExecutionContext) (name : String) :
    Option LoomValue :=
  ctx.vars.lookup name

mutual
/-- `types.rs` `LiteralValue::stringify`. The float arm is the `Display`
rendering of an `f64`, modelled on the `Rat` representation (no claim
evaluates it). -/
def LiteralValue.stringify : LiteralValue → String
  | .string v => v
  | .number v => toString v
  | .float v => toString v
  | .boolean v => if v then "true" else "false"
  | .array v => "[" ++ String.intercalate ", " (LiteralValue.stringifyList v) ++ "]"
  | .json v => v

/-- Elementwise `stringify` of the members of an array literal. -/
def LiteralValue.stringifyList : List LiteralValue → List String
  | [] => []
  | a :: rest => LiteralValue.stringify a :: LiteralValue.stringifyList rest
end

/-- Artifact of the embedding: the Rust evaluator recurses without bound
(and can diverge, e.g. on a variable bound to an expression that mentions
itself), so the Lean evaluator carries a fuel; this error marks fuel
exhaustion and corresponds to no Rust-side value. Theorems instantiate or
quantify over sufficient fuel. -/
def fuelExhausted : LoomError :=
  .executionError "evaluation recursion fuel exhausted" none none

/-- Rust `str::contains` with a string pattern: substring containment. -/
def strContainsSub (s sub : String) : Bool :=
  s.toList.tails.any fun t => sub.toList.isPrefixOf t

/-- `ast.rs` `Expression::evaluate_literal_binary_op`, arm for arm. -/
def evaluate_literal_binary_op (left : LiteralValue) (operator : BinaryOperator)
    (right : LiteralValue) (position : Option Position) : LoomResult LoomValue :=
  let pos := position.getD Position.default
  match left, operator, right with
  | .number a, .add, .number b => .ok (.literal (.number (a + b)))
  | .float a, .add, .float b => .ok (.literal (.float (a + b)))
  | .number a, .add, .float b => .ok (.literal (.float (a + b)))
  | .float a, .add, .number b => .ok (.literal (.float (a + b)))
  | .string a, .add, .string b => .ok (.literal (.string (a ++ b)))
  | .number a, .subtract, .number b => .ok (.literal (.number (a - b)))
  | .float a, .subtract, .float b => .ok (.literal (.float (a - b)))
  | .number a, .subtract, .float b => .ok (.literal (.float (a - b)))
  | .float a, .subtract, .number b => .ok (.literal (.float (a - b)))
  | .number a, .multiply, .number b => .ok (.literal (.number (a * b)))
  | .float a, .multiply, .float b => .ok (.literal (.float (a * b)))
  | .number a, .multiply, .float b => .ok (.literal (.float (a * b)))
  | .float a, .multiply, .number b => .ok (.literal (.float (a * b)))
  | .number a, .divide, .number b =>
      if b == 0 then .error (.expression "division" "Division by zero" pos)
      else .ok (.literal (.number (a.tdiv b)))
  | .float a, .divide, .float b =>
      if b == 0 then .error (.expression "division" "Division by zero" pos)
      else .ok (.literal (.float (a / b)))
  | a, .equal, b => .ok (.literal (.boolean (LiteralValue.beq a b)))
  | a, .notEqual, b => .ok (.literal (.boolean (!LiteralValue.beq a b)))
  | .number a, .less, .number b => .ok (.literal (.boolean (a < b)))
  | .float a, .less, .float b => .ok (.literal (.boolean (a < b)))
  | .string a, .less, .string b => .ok (.literal (.boolean (a < b)))
  | .string s, .contains, .string sub =>
      .ok (.literal (.boolean (strContainsSub s sub)))
  | .string s, .startsWith, .string pre => .ok (.literal (.boolean (s.startsWith pre)))
  | .string s, .endsWith, .string suffix => .ok (.literal (.boolean (s.endsWith suffix)))
  | .boolean a, .and, .boolean b => .ok (.literal (.boolean (a && b)))
  | .boolean a, .or, .boolean b => .ok (.literal (.boolean (a || b)))
  | l, op, r =>
      .error (.expression "binary_operation"
        ("Operator " ++ op.debugStr ++ " not supported between " ++
          l.discriminantDebug ++ " and " ++ r.discriminantDebug) pos)

mutual
/-- `ast.rs` `Expression::evaluate`, with a fuel bounding recursion depth
(see `fuelExhausted`). -/
def Expression.evaluate : Nat → Expression → LoomContext → ExecutionContext →
    Option Position → LoomResult LoomValue
  | 0, _, _, _, _ => .error fuelExhausted
  | fuel + 1, e, lc, ctx, position =>
    match e with
    | .literal lit => .ok (.literal lit)
    | .var varName =>
        match ctx.get_variable varName with
        | some v => .ok v
        | none =>
            .error (match position with
              | some pos => LoomError.undefined varName .variable pos
              | none => LoomError.execution ("Variable '" ++ varName ++ "' not found"))
    | .functionCall name args =>
        .error (.notImplemented "function calls"
          ("Function '" ++ name ++ "' with " ++ toString args.length ++ " arguments"))
    | .indexAccess object index => do
        let objValue ← Expression.evaluate fuel object lc ctx position
        let indexValue ← Expression.evaluate fuel index lc ctx position
        match objValue, indexValue with
        | .literal (.array arr), .literal (.number idx) =>
            let idxN := (idx.emod (2 ^ 64)).toNat
            match arr.get? idxN with
            | some v => .ok (.literal v)
            | none =>
                .error (LoomError.execution
                  ("Array index " ++ toString idxN ++ " out of bounds (length: " ++
                    toString arr.length ++ ")"))
        | objValue, indexValue =>
            .error (.expression "index_access"
              ("Cannot index \"" ++ objValue.typeName ++ "\" with \"" ++
                indexValue.typeName ++ "\"")
              (position.getD Position.default))
    | .binaryOp left operator right => do
        let leftVal ← Expression.evaluate fuel left lc ctx position
        let rightVal ← Expression.evaluate fuel right lc ctx position
        match leftVal, rightVal with
        | .literal l, .literal r => evaluate_literal_binary_op l operator r position
        | leftVal, rightVal =>
            .error (.expression "binary_operation"
              ("Binary operation " ++ operator.debugStr ++ " not supported between " ++
                leftVal.typeName ++ " and " ++ rightVal.typeName)
              (position.getD Position.default))
    | .unaryOp operator operand => do
        let value ← Expression.evaluate fuel operand lc ctx position
        match operator, value with
        | .not, .literal (.boolean b) => .ok (.literal (.boolean (!b)))
        | .minus, .literal (.number n) => .ok (.literal (.number (-n)))
        | .minus, .literal (.float f) => .ok (.literal (.float (-f)))
        | operator, value =>
            .error (.expression "unary_operation"
              ("Cannot apply " ++ operator.debugStr ++ " to \"" ++ value.typeName ++ "\"")
              (position.getD Position.default))
    | .enumAccess enumName variant =>
        match lc.find_enum enumName with
        | none =>
            .error (match position with
              | some pos => LoomError.undefined enumName .enumKind pos
              | none => LoomError.execution ("Enum '" ++ enumName ++ "' not found"))
        | some en =>
            match en.variants.lookup variant with
            | some value => .ok (.literal (.string value))
            | none =>
                .error (match position with
                  | some pos =>
                      LoomError.undefined (enumName ++ "::" ++ variant) .enumVariant pos
                  | none =>
                      LoomError.execution
                        ("Enum '" ++ enumName ++ "' doesn't contain variant '" ++ variant ++
                          "'. Available: [" ++
                          String.intercalate ", " (en.variants.map Prod.fst) ++ "]"))
    | .interpolation parts =>
        (Expression.evalInterpolation fuel parts lc ctx position "").map fun result =>
          .literal (.string result)

/-- The accumulating loop of the `Expression::Interpolation` arm of
`evaluate`: text parts are appended, expression parts are evaluated and
stringified (a stringify failure is wrapped as a `string_interpolation`
expression error). -/
def Expression.evalInterpolation : Nat → List InterpolationPart → LoomContext →
    ExecutionContext → Option Position → String → LoomResult String
  | 0, _, _, _, _, _ => .error fuelExhausted
  | _ + 1, [], _, _, _, acc => .ok acc
  | fuel + 1, part :: rest, lc, ctx, position, acc =>
    match part with
    | .text t => Expression.evalInterpolation fuel rest lc ctx position (acc ++ t)
    | .expression expr => do
        let value ← Expression.evaluate fuel expr lc ctx position
        match LoomValue.stringify fuel value lc ctx with
        | .error e =>
            .error (.expression "string_interpolation"
              ("Failed to stringify expression in interpolation: " ++ e.display)
              (position.getD Position.default))
        | .ok stringValue =>
            Expression.evalInterpolation fuel rest lc ctx position (acc ++ stringValue)

/-- `types.rs` `LoomValue::stringify` (the `Expression` arm calls the
two-argument `evaluate` of `types.rs`, i.e. with no position). -/
def LoomValue.stringify : Nat → LoomValue → LoomContext → ExecutionContext →
    LoomResult String
  | 0, _, _, _ => .error fuelExhausted
  | _ + 1, .literal lit, _, _ => .ok lit.stringify
  | fuel + 1, .expression expr, lc, ctx =>
      (Expression.evaluate fuel expr lc ctx none).bind fun val =>
        LoomValue.stringify fuel val lc ctx
  | _ + 1, .empty, _, _ => .ok ""
end

/-- `scope.rs` `BlockTarget`. -/
structure BlockTarget where
  directives : List DirectiveCall
  commands : List Statement
  label : List Expression
deriving Repr

/-- The `Block` → `BlockTarget` conversion used by `scope.rs`
(directives/statements/label field for field). -/
def Block.toTarget (b : Block) : BlockTarget :=
  { directives := b.directives, commands := b.statements, label := b.label }

/-- `scope.rs` `ExecutionActivity`. -/
inductive ExecutionActivity where
  | command (stmt : Statement)
  | block (b : BlockTarget)
  | pipeline (name : String) (directives : List DirectiveCall) (stages : List BlockTarget)
  | stage (s : BlockTarget)
  | job (name : String) (directives : List DirectiveCall) (blocks : List BlockTarget)
  | schedule (name : String) (directives : List DirectiveCall)
  | definition (name : String) (directives : List DirectiveCall) (blocks : List BlockTarget)
deriving Repr

/-- `scope.rs` `From<&Definition> for ExecutionActivity`. -/
def ExecutionActivity.fromDefinition (d : Definition) : ExecutionActivity :=
  let blocks := d.body.map Block.toTarget
  match d.kind with
  | .recipe => .definition d.signature.name d.directives blocks
  | .job => .job d.signature.name d.directives blocks
  | .pipeline => .pipeline d.signature.name d.directives blocks
  | .schedule => .schedule d.signature.name d.directives

/-- Rust's `collect::<Result<Vec<_>, _>>` over a mapped iterator: apply `f`
to each element in order, stopping at the first error. -/
def collectExcept {α β ε : Type} (f : α → Except ε β) : List α → Except ε (List β)
  | [] => .ok []
  | x :: xs =>
      match f x with
      | .error e => .error e
      | .ok y =>
          match collectExcept f xs with
          | .error e => .error e
          | .ok ys => .ok (y :: ys)

/-- The per-part evaluation of the `Stage` arm of `build_child`:
`expr.evaluate(loom_context, context, Default::default())` (so with no
position) followed by `stringify`. -/
def evalPartToString (fuel : Nat) (lc : LoomContext) (ctx : ExecutionContext)
    (expr : Expression) : LoomResult String := do
  let val ← Expression.evaluate fuel expr lc ctx none
  LoomValue.stringify fuel val lc ctx

/-- One iteration of the `Stage` loop of `ExecutionActivity::build_child`:
a `Statement::Command` has its parts evaluated and stringified into a name,
which must resolve to a definition that is materialised as a `Job`
activity; any other statement is the structural error. -/
def ExecutionActivity.stageChild (fuel : Nat) (lc : LoomContext) (ctx : ExecutionContext) :
    Statement → LoomResult ExecutionActivity
  | .command parts _ =>
      match collectExcept (evalPartToString fuel lc ctx) parts with
      | .error e => .error e
      | .ok pieces =>
          match lc.find_definition (String.join pieces) with
          | none =>
              .error (LoomError.definition_resolution (String.join pieces) "Cannot find Job")
          | some jobDefinition =>
              .ok (.job (String.join pieces) jobDefinition.directives
                (jobDefinition.body.map Block.toTarget))
  | .call _ _ _ =>
      .error (LoomError.execution "Tipo di statement non previsto per uno stage!")

/-- `scope.rs` `ExecutionActivity::build_child`. -/
def ExecutionActivity.build_child (fuel : Nat) (lc : LoomContext) (ctx : ExecutionContext) :
    ExecutionActivity → LoomResult (List ExecutionActivity)
  | .command _ => .ok []
  | .block b => .ok (b.commands.map .command)
  | .stage s => collectExcept (ExecutionActivity.stageChild fuel lc ctx) s.commands
  | .pipeline _ _ stages => .ok (stages.map .stage)
  | .job _ _ blocks => .ok (blocks.map .block)
  | .schedule _ _ => .ok []
  | .definition _ _ blocks => .ok (blocks.map .block)

/-- `priority.rs`: a reserved half-open `Range<i32>` `lo..hi`. -/
structure PriorityRange where
  lo : Int
  hi : Int
deriving DecidableEq, Repr

/-- `Range::contains`. -/
def PriorityRange.containsInt (r : PriorityRange) (p : Int) : Bool :=
  r.lo ≤ p && p < r.hi

/-- `PriorityRanges::CRITICAL_SYSTEM` (9000..10000). -/
def CRITICAL_SYSTEM : PriorityRange := ⟨9000, 10000⟩
/-- `PriorityRanges::GLOBAL_HIGH` (8000..9000). -/
def GLOBAL_HIGH : PriorityRange := ⟨8000, 9000⟩
/-- `PriorityRanges::DIRECTIVE_HIGH` (7000..8000). -/
def DIRECTIVE_HIGH : PriorityRange := ⟨7000, 8000⟩
/-- `PriorityRanges::GLOBAL_NORMAL` (5000..7000). -/
def GLOBAL_NORMAL : PriorityRange := ⟨5000, 7000⟩
/-- `PriorityRanges::DIRECTIVE_NORMAL` (3000..5000). -/
def DIRECTIVE_NORMAL : PriorityRange := ⟨3000, 5000⟩
/-- `PriorityRanges::GLOBAL_SUPPORT` (1000..3000). -/
def GLOBAL_SUPPORT : PriorityRange := ⟨1000, 3000⟩
/-- `PriorityRanges::DIRECTIVE_SUPPORT` (500..1000). -/
def DIRECTIVE_SUPPORT : PriorityRange := ⟨500, 1000⟩
/-- `PriorityRanges::MONITORING` (0..500). -/
def MONITORING : PriorityRange := ⟨0, 500⟩

/-- `global/interceptor.rs` `ActivationCondition`; the `CommandPattern`
regex is carried as its source text (the code never evaluates it). -/
inductive ActivationCondition where
  | targetType (types : List String)
  | environment (envs : List String)
  | commandPattern (pattern : String)
  | workspace (workspaces : List String)
  | timeWindow (start : String) (stop : String)
  | custom (expr : String)
deriving DecidableEq, Repr

/-- `global/config.rs` `GlobalInterceptorConfig` (the `parameters` map of
`serde_json::Value`s is never read by the embedded operations and is
omitted). -/
structure GlobalInterceptorConfig where
  enabled : Bool
  priority : Int
  conditions : List ActivationCondition
  userOverridable : Bool
deriving DecidableEq, Repr

/-- The two external effects read by `evaluate_condition`: the wall-clock
`TimeWindow` check (`chrono::Local::now` against the parsed bounds) and
`Path::file_name` of the working directory. -/
structure PlatformModel where
  inTimeWindow : String → String → Bool
  fileBasename : String → Option String

/-- The environment-name resolution of the `Environment` arm of
`evaluate_condition`: `LOOM_ENV`, else `ENVIRONMENT`, else
`"development"`. -/
def currentEnvironment (ctx : ExecutionContext) : String :=
  match ctx.envVars.lookup "LOOM_ENV" with
  | some v => v
  | none =>
      match ctx.envVars.lookup "ENVIRONMENT" with
      | some v => v
      | none => "development"

/-- `global/interceptor.rs` `GlobalInterceptor::evaluate_condition`
(default trait body; implementations could override it in Rust, the
embedding models the default). -/
def evaluate_condition (pf : PlatformModel) (condition : ActivationCondition)
    (ctx : ExecutionContext) : Bool :=
  match condition with
  | .targetType types =>
      let targetStr :=
        match ctx.scope with
        | .command => "command"
        | .pipeline => "pipeline"
        | .job => "job"
        | _ => "other"
      types.contains targetStr
  | .environment envs => envs.contains (currentEnvironment ctx)
  | .commandPattern _ => false
  | .workspace workspaces =>
      workspaces.contains ((ctx.workingDir.bind pf.fileBasename).getD "unknown")
  | .timeWindow start stop => pf.inTimeWindow start stop
  | .custom _ => true

/-- `global/interceptor.rs` `GlobalInterceptor::should_activate` (default
trait body): enabled, and every activation condition holds. -/
def should_activate (pf : PlatformModel) (config : GlobalInterceptorConfig)
    (ctx : ExecutionContext) : Bool :=
  config.enabled && config.conditions.all fun c => evaluate_condition pf c ctx

/-- `interceptor/result.rs` `ExecutionResult`. -/
structure ExecutionResult where
  output : Option String
  exitCode : Option Int
  metadata : List (String × String)
deriving DecidableEq, Repr

/-- `interceptor/context.rs` `InterceptorContext`: the per-run state seen
by an interceptor. The hook registry and event channel are never observed
by the embedded control flow and are omitted; the `Arc<RwLock<_>>` around
the execution context is identified with its content. -/
structure InterceptorContextM where
  loomContext : LoomContext
  executionContext : ExecutionContext

/-- `InterceptorResult` as used by `engine.rs` (errors are `LoomError`
values there; the older `Result<_, String>` alias of `mod.rs` is a
superseded iteration). -/
abbrev InterceptorResultM := Except LoomError ExecutionResult

/-- `GlobalInterceptor` trait object: name, default config, `need_chain`,
and the `intercept(context, config, next)` method as `run`. -/
structure GlobalInterceptorDef where
  name : String
  description : String
  defaultConfig : GlobalInterceptorConfig
  needChain : Bool
  run : InterceptorContextM → GlobalInterceptorConfig →
    (InterceptorContextM → InterceptorResultM) → InterceptorResultM

/-- `DirectiveInterceptor` trait object: directive name, `priority()`,
`need_chain`, `parse_parameters`, and `intercept(context, next)` as
`run`. -/
structure DirectiveInterceptorDef where
  directiveName : String
  priority : Int
  needChain : Bool
  parseParameters : LoomContext → ExecutionContext → DirectiveCall →
    Except String (List (String × LoomValue))
  run : InterceptorContextM → (InterceptorContextM → InterceptorResultM) →
    InterceptorResultM

/-- Modelled from the spec: `ExecutorConfig` is referenced by the executor
code but its definition is not under `src/`; no embedded operation inspects
it, so it is an empty record. -/
structure ExecutorConfig where
deriving DecidableEq, Repr

/-- `ExecutorInterceptor` trait object: name, `need_chain`, and
`intercept(context, config, next)` as `run`. -/
structure ExecutorInterceptorDef where
  name : String
  description : String
  needChain : Bool
  run : InterceptorContextM → ExecutorConfig →
    (InterceptorContextM → InterceptorResultM) → InterceptorResultM

/-- `global/mod.rs` `ActiveGlobalInterceptor`. -/
structure ActiveGlobalInterceptor where
  interceptor : GlobalInterceptorDef
  config : GlobalInterceptorConfig
  name : String

/-- `directive/mod.rs` `ActiveDirectiveInterceptor`. -/
structure ActiveDirectiveInterceptor where
  interceptor : DirectiveInterceptorDef
  params : List (String × LoomValue)
  name : String
  priority : Int

/-- `executor/mod.rs` `ActiveExecutorInterceptor`. -/
structure ActiveExecutorInterceptor where
  interceptor : ExecutorInterceptorDef
  config : ExecutorConfig
  name : String

/-- `ActiveExecutorInterceptor::new`. -/
def ActiveExecutorInterceptor.new (executor : ExecutorInterceptorDef) :
    ActiveExecutorInterceptor :=
  { name := executor.name, config := {}, interceptor := executor }

/-- `interceptor/mod.rs` `ActiveInterceptor`. -/
inductive ActiveInterceptor where
  | global (g : ActiveGlobalInterceptor)
  | directive (d : ActiveDirectiveInterceptor)
  | executor (e : ActiveExecutorInterceptor)

/-- `i32::MAX`. -/
def i32Max : Int := 2147483647

/-- `ActiveInterceptor::priority` (`mod.rs`): executors report
`i32::MAX`. -/
def ActiveInterceptor.priority : ActiveInterceptor → Int
  | .global g => g.config.priority
  | .directive d => d.priority
  | .executor _ => i32Max

/-- `ActiveInterceptor::name` (`mod.rs`). -/
def ActiveInterceptor.nameOf : ActiveInterceptor → String
  | .global g => g.name
  | .directive d => d.name
  | .executor e => e.name

/-- `ActiveInterceptor::need_chain`, called by `execute_chain`: dispatch to
the wrapped trait object's `need_chain()` (the dispatching body itself is
absent from this iteration of `mod.rs`; the per-trait `need_chain` methods
are in `src/`). -/
def ActiveInterceptor.need_chain : ActiveInterceptor → Bool
  | .global g => g.interceptor.needChain
  | .directive d => d.interceptor.needChain
  | .executor e => e.interceptor.needChain

/-- The descending-priority order `ActiveInterceptor::sort` sorts by:
`b.priority().cmp(&a.priority())` is not-Greater exactly when
`b.priority ≤ a.priority`. -/
def chainOrder (a b : ActiveInterceptor) : Prop :=
  b.priority ≤ a.priority

instance : DecidableRel chainOrder := fun a b => Int.decLe b.priority a.priority

instance : IsTotal ActiveInterceptor chainOrder :=
  ⟨fun a b => le_total b.priority a.priority⟩

instance : IsTrans ActiveInterceptor chainOrder :=
  ⟨fun _ _ _ hab hbc => le_trans hbc hab⟩

/-- `engine.rs` `InterceptorEngine::plug_and_sort_chain`: globals then
directives, sorted descending by priority, with the terminal appended
last. Rust's `sort_unstable_by` leaves the order of equal priorities
unspecified; insertion sort is one witness of the comparator's
postcondition (sorted permutation), which is all the code relies on. -/
def plug_and_sort_chain (globalItcs : List ActiveGlobalInterceptor)
    (directiveItcs : List ActiveDirectiveInterceptor)
    (targetInterceptor : ActiveInterceptor) : List ActiveInterceptor :=
  List.insertionSort chainOrder
      (globalItcs.map ActiveInterceptor.global ++
        directiveItcs.map ActiveInterceptor.directive) ++
    [targetInterceptor]

/-- `executor/implementation/mod.rs` `empty_execute_intercept_next`. -/
def empty_execute_intercept_next : InterceptorContextM → InterceptorResultM :=
  fun _ => .error (LoomError.execution "You are trying to call an empty interceptor chain")

/-- `engine.rs` `InterceptorEngine::launch_interceptor`: dispatch on the
`ActiveInterceptor` variant (the source indexes `chain[index]`; the element
is passed directly here, with the bound carried by the callers). -/
def launch_interceptor (context : InterceptorContextM) (ai : ActiveInterceptor)
    (next : InterceptorContextM → InterceptorResultM) : InterceptorResultM :=
  match ai with
  | .global g => g.interceptor.run context g.config next
  | .directive d => d.interceptor.run context next
  | .executor e => e.interceptor.run context e.config next

/-- `engine.rs` `InterceptorEngine::execute_chain_recursive` together with
`create_next_chain`, represented on the suffix `chain[index..]` of the
source's `(chain, index)` pair: an exhausted suffix is the source's
`index >= chain.len()` bounds error; otherwise the head (the element at
`index`) is launched with a continuation that resumes at `index + 1` when
that position exists (`rest` non-empty) and otherwise fails with the
end-of-chain error. -/
def execute_chain_recursive (context : InterceptorContextM) :
    List ActiveInterceptor → InterceptorResultM
  | [] => .error (LoomError.execution "Chain index out of bounds")
  | ai :: rest =>
      launch_interceptor context ai fun context' =>
        match rest with
        | [] => .error (LoomError.execution "End of interceptor chain reached")
        | r :: rs => execute_chain_recursive context' (r :: rs)

/-- The `while` loop of `engine.rs` `InterceptorEngine::execute_chain`,
represented on the suffix `chain[index..]`: falling off the end is the
source's post-loop "No interceptor executed" error; a `need_chain`
interceptor hands control to the recursive continuation chain; otherwise
the interceptor is launched with the empty continuation, an error aborts,
and an `Ok` result is returned only at the last index (`rest` empty) — at
any earlier index it is discarded and the loop advances. -/
def execute_chain_loop (context : InterceptorContextM) :
    List ActiveInterceptor → InterceptorResultM
  | [] => .error (LoomError.execution "No interceptor executed")
  | ai :: rest =>
      if ai.need_chain then execute_chain_recursive context (ai :: rest)
      else
        match launch_interceptor context ai empty_execute_intercept_next with
        | .error e => .error e
        | .ok result =>
            match rest with
            | [] => .ok result
            | r :: rs => execute_chain_loop context (r :: rs)

/-- `engine.rs` `InterceptorEngine::execute_chain`. -/
def execute_chain (context : InterceptorContextM) (chain : List ActiveInterceptor) :
    InterceptorResultM :=
  if chain.isEmpty then .error (LoomError.execution "Empty interceptor chain")
  else execute_chain_loop context chain

/-- `HashMap::insert`: overwrite the binding of the key, else append. -/
def insertOverwrite {β : Type} (k : String) (v : β) :
    List (String × β) → List (String × β)
  | [] => [(k, v)]
  | (k', v') :: rest =>
      if k' == k then (k, v) :: rest else (k', v') :: insertOverwrite k v rest

/-- The chain-cache key of `engine.rs` `execute`:
`format!("{}_{}", def_name, input_args.len())`. -/
def cache_key (defName : String) (argCount : Nat) : String :=
  defName ++ "_" ++ toString argCount

/-- The chain-cache consultation of `engine.rs` `execute` (lines 113-133,
the path on which the cache lock is healthy): return the cached chain for
the key if present, otherwise cache and return `built`, the chain
`build_target_chain` computes on this call. -/
def chain_from_cache (cache : List (String × List ActiveInterceptor)) (key : String)
    (built : List ActiveInterceptor) :
    List ActiveInterceptor × List (String × List ActiveInterceptor) :=
  match cache.lookup key with
  | some cachedChain => (cachedChain, cache)
  | none => (built, insertOverwrite key built cache)

/-- The definition-resolution step of `engine.rs` `execute` (lines 89-90):
`find_definition(def_name).ok_or_else(execution error)`. -/
def resolve_definition (lc : LoomContext) (defName : String) : LoomResult Definition :=
  match lc.find_definition defName with
  | some d => .ok d
  | none =>
      .error (LoomError.execution ("Cannot find the definition: '" ++ defName ++ "'"))

/-- The names the registry can resolve (the keys of `definitions_ref`),
the "known definition names" of the spec's `DefinitionNotFound`. -/
def LoomContext.knownNames (lc : LoomContext) : List String :=
  lc.definitionsRef.map Prod.fst

/-- `global/manager.rs` `GlobalInterceptorManager`. -/
structure GlobalInterceptorManager where
  interceptors : List (String × GlobalInterceptorDef)
  configs : List (String × GlobalInterceptorConfig)
  userOverrides : List (String × Bool)

/-- `GlobalInterceptorManager::new`. -/
def GlobalInterceptorManager.new : GlobalInterceptorManager := ⟨[], [], []⟩

/-- `global/manager.rs` `validate_global_priority` (reads no manager
state). -/
def validate_global_priority (priority : Int) : LoomResult Unit :=
  let validRanges := [CRITICAL_SYSTEM, GLOBAL_HIGH, GLOBAL_NORMAL, GLOBAL_SUPPORT,
    MONITORING]
  let isValid := validRanges.any fun range => range.containsInt priority
  if !isValid then
    .error (LoomError.execution
      ("Global interceptor priority " ++ toString priority ++
        " is not in valid range. Use: CRITICAL_SYSTEM (9000-10000), GLOBAL_HIGH (8000-9000), GLOBAL_NORMAL (5000-7000), GLOBAL_SUPPORT (1000-3000), MONITORING (0-500)"))
  else .ok ()

/-- `global/manager.rs` `GlobalInterceptorManager::register`; the pair is
(`Result` return value, state of `&mut self` after the call). -/
def GlobalInterceptorManager.register (m : GlobalInterceptorManager)
    (interceptor : GlobalInterceptorDef) :
    LoomResult Unit × GlobalInterceptorManager :=
  let name := interceptor.name
  let config := interceptor.defaultConfig
  match validate_global_priority config.priority with
  | .error e => (.error e, m)
  | .ok _ =>
      (.ok (),
        { m with
          interceptors := insertOverwrite name interceptor m.interceptors,
          configs := insertOverwrite name config m.configs })

/-- `global/manager.rs` `GlobalInterceptorManager::configure`. -/
def GlobalInterceptorManager.configure (m : GlobalInterceptorManager) (name : String)
    (config : GlobalInterceptorConfig) : LoomResult Unit × GlobalInterceptorManager :=
  if !(m.interceptors.lookup name).isSome then
    (.error (LoomError.execution ("Global interceptor '" ++ name ++ "' not found")), m)
  else
    match validate_global_priority config.priority with
    | .error e => (.error e, m)
    | .ok _ => (.ok (), { m with configs := insertOverwrite name config m.configs })

/-- `global/manager.rs` `GlobalInterceptorManager::set_user_override`. -/
def GlobalInterceptorManager.set_user_override (m : GlobalInterceptorManager)
    (name : String) (enabled : Bool) : LoomResult Unit × GlobalInterceptorManager :=
  match m.configs.lookup name with
  | none =>
      (.error (LoomError.execution ("Global interceptor '" ++ name ++ "' not found")), m)
  | some config =>
      if !config.userOverridable then
        (.error (LoomError.execution
          ("Global interceptor '" ++ name ++ "' cannot be overridden")), m)
      else (.ok (), { m with userOverrides := insertOverwrite name enabled m.userOverrides })

/-- The descending order `get_active` sorts by
(`b.config.priority.cmp(&a.config.priority)`). -/
def activeGlobalOrder (a b : ActiveGlobalInterceptor) : Prop :=
  b.config.priority ≤ a.config.priority

instance : DecidableRel activeGlobalOrder :=
  fun a b => Int.decLe b.config.priority a.config.priority

/-- `global/manager.rs` `GlobalInterceptorManager::get_active`: per stored
interceptor, fetch its config (`.unwrap()` — `none` models that panic),
apply a user override to `enabled`, keep it if `should_activate`, then sort
descending by priority. -/
def GlobalInterceptorManager.get_active (pf : PlatformModel)
    (m : GlobalInterceptorManager) (ctx : ExecutionContext) :
    Option (List ActiveGlobalInterceptor) :=
  match m.interceptors.mapM fun p =>
      (m.configs.lookup p.1).map fun cfg0 =>
        (p.1, p.2,
          match m.userOverrides.lookup p.1 with
          | some userEnabled => { cfg0 with enabled := userEnabled }
          | none => cfg0) with
  | none => none
  | some entries =>
      some (List.insertionSort activeGlobalOrder
        ((entries.filter fun e => should_activate pf e.2.2 ctx).map fun e =>
          ({ interceptor := e.2.1, config := e.2.2, name := e.1 } :
            ActiveGlobalInterceptor)))

/-- `directive/manager.rs` `DirectiveInterceptorManager`. -/
structure DirectiveInterceptorManager where
  interceptors : List (String × DirectiveInterceptorDef)

/-- `directive/manager.rs` `validate_directive_priority` (errors are plain
`String`s in this manager). -/
def validate_directive_priority (priority : Int) : Except String Unit :=
  let validRanges := [DIRECTIVE_HIGH, DIRECTIVE_NORMAL, DIRECTIVE_SUPPORT]
  let isValid := validRanges.any fun range => range.containsInt priority
  if !isValid then
    .error ("Directive interceptor priority " ++ toString priority ++
      " is not in valid range. Use: DIRECTIVE_HIGH (7000-8000), DIRECTIVE_NORMAL (3000-5000), DIRECTIVE_SUPPORT (500-1000)")
  else .ok ()

/-- `directive/manager.rs` `DirectiveInterceptorManager::register`. -/
def DirectiveInterceptorManager.register (m : DirectiveInterceptorManager)
    (interceptor : DirectiveInterceptorDef) :
    Except String Unit × DirectiveInterceptorManager :=
  match validate_directive_priority interceptor.priority with
  | .error e => (.error e, m)
  | .ok _ =>
      (.ok (),
        ⟨insertOverwrite interceptor.directiveName interceptor m.interceptors⟩)

/-- The descending order `build_active` sorts by. -/
def activeDirectiveOrder (a b : ActiveDirectiveInterceptor) : Prop :=
  b.priority ≤ a.priority

instance : DecidableRel activeDirectiveOrder :=
  fun a b => Int.decLe b.priority a.priority

/-- `directive/manager.rs` `DirectiveInterceptorManager::build_active`:
resolve each directive call to its interceptor (unknown name is a hard
error), parse its parameters, and sort descending by priority. -/
def DirectiveInterceptorManager.build_active (m : DirectiveInterceptorManager)
    (lc : LoomContext) (ctx : ExecutionContext) (directives : List DirectiveCall) :
    Except String (List ActiveDirectiveInterceptor) := do
  let active ← directives.mapM fun dcall => do
    match m.interceptors.lookup dcall.name with
    | none => Except.error ("Unknown directive: " ++ dcall.name)
    | some interceptor => do
        let params ← interceptor.parseParameters lc ctx dcall
        pure (⟨interceptor, params, dcall.name, interceptor.priority⟩ :
          ActiveDirectiveInterceptor)
  pure (List.insertionSort activeDirectiveOrder active)

/-- The outcome of `std::process::Command::output()`: the OS either runs
the process (optional exit status code, captured stdout) or fails to spawn
it (`std::io::Error`, carried as its rendered message). -/
inductive SpawnOutcome where
  | ok (exitCode : Option Int) (stdout : String)
  | failure (message : String)
deriving DecidableEq, Repr

/-- `executor/implementation/command.rs`
`CommandExecutorInterceptor::execute_command`: dry-run short-circuits with
a synthetic result; otherwise the spawn outcome is folded into an
`ExecutionResult` — a spawn failure becomes an `Ok` result whose metadata
carries a `system_error` entry (stderr is dropped as in the source). -/
def execute_command (spawn : SpawnOutcome) (commandString : String)
    (context : ExecutionContext) : LoomResult ExecutionResult :=
  if context.dryRun then
    .ok { output := some ("DRY RUN: Would execute: " ++ commandString),
          exitCode := some 0, metadata := [] }
  else
    match spawn with
    | .ok exitCode stdout =>
        let metadata := [("command", commandString)] ++
          (match exitCode with
           | some code => [("exit_code", toString code)]
           | none => [])
        .ok { output := if stdout == "" then none else some stdout,
              exitCode := exitCode, metadata := metadata }
    | .failure e =>
        .ok { output := none, exitCode := none,
              metadata := [("command", commandString), ("system_error", e)] }

/-! Concrete fixtures used by counterexamples and witnesses. -/

/-- An empty registry. -/
def loomCtx0 : LoomContext := ⟨[], [], []⟩

/-- A minimal execution context (dry-run off, command scope). -/
def execCtx0 : ExecutionContext :=
  { vars := [], envVars := [], workingDir := none, dryRun := false,
    scope := .command, parallelizationKind := .sequential, metadata := [] }

/-- A minimal interceptor context. -/
def ictx0 : InterceptorContextM := ⟨loomCtx0, execCtx0⟩

/-- A distinguishable execution result. -/
def resultOne : ExecutionResult := { output := some "one", exitCode := some 0, metadata := [] }

/-- A second, different execution result. -/
def resultTwo : ExecutionResult := { output := some "two", exitCode := some 0, metadata := [] }

/-- A self-contained executor (`need_chain() == false`) that succeeds with
the fixed result `r` without calling its continuation. -/
def doneExecutor (r : ExecutionResult) : ExecutorInterceptorDef :=
  { name := "done", description := "returns a fixed result", needChain := false,
    run := fun _ _ _ => .ok r }

/-- `doneExecutor r` wrapped as a chain element. -/
def doneInterceptor (r : ExecutionResult) : ActiveInterceptor :=
  .executor (ActiveExecutorInterceptor.new (doneExecutor r))

/-- A definition named `deploy`. -/
def defDeploy : Definition :=
  { kind := .recipe, signature := ⟨"deploy", []⟩, body := [], directives := [],
    position := Position.default, moduleIndex := 0 }

/-- A registry that knows exactly the definition `deploy`. -/
def lcDeploy : LoomContext := ⟨[(0, ⟨[(0, defDeploy)], [], []⟩)], [("deploy", 0, 0)], []⟩

/-- A job definition named `build`. -/
def defBuild : Definition :=
  { kind := .job, signature := ⟨"build", []⟩, body := [], directives := [],
    position := Position.default, moduleIndex := 0 }

/-- A registry that knows exactly the job definition `build`. -/
def lcBuild : LoomContext := ⟨[(0, ⟨[(0, defBuild)], [], []⟩)], [("build", 0, 0)], []⟩

/-- A stage whose only statement is `Statement::Call` to the resolvable
job `build`. -/
def stageWithCall : BlockTarget :=
  { directives := [], commands := [Statement.call "build" [] []], label := [] }

/-- A stage whose only statement is a `Statement::Command` whose text
evaluates to the name `build`. -/
def stageWithCommand : BlockTarget :=
  { directives := [],
    commands := [Statement.command [Expression.literal (.string "build")] []],
    label := [] }

/-- A global interceptor gated on the `production` environment
(enabled, `CRITICAL_SYSTEM` priority). -/
def prodGate : GlobalInterceptorDef :=
  { name := "prod-gate", description := "active only in production",
    defaultConfig :=
      { enabled := true, priority := 9500,
        conditions := [.environment ["production"]], userOverridable := false },
    needChain := false,
    run := fun _ _ _ => .error (LoomError.execution "unused") }

/-- An execution context whose environment resolves to `production`. -/
def ctxProd : ExecutionContext :=
  { execCtx0 with envVars := [("LOOM_ENV", "production")] }

/-- A fixed platform model (time window always open, no path basename). -/
def pf0 : PlatformModel := ⟨fun _ _ => true, fun _ => none⟩

/-- A global interceptor whose default priority 4000 sits in a directive
band. -/
def badGlobal : GlobalInterceptorDef :=
  { name := "bad-global", description := "",
    defaultConfig :=
      { enabled := true, priority := 4000, conditions := [], userOverridable := false },
    needChain := false,
    run := fun _ _ _ => .error (LoomError.execution "unused") }

/-- A directive interceptor whose priority 6000 sits in a global band. -/
def badDirective : DirectiveInterceptorDef :=
  { directiveName := "bad-directive", priority := 6000, needChain := false,
    parseParameters := fun _ _ _ => .ok [],
    run := fun _ _ => .error (LoomError.execution "unused") }

/-- The spec's "dedicated division-by-zero error", as a recogniser: an
`Expression` error of kind `division` with the `Division by zero`
message. -/
def isDivisionByZeroError : LoomResult LoomValue → Bool
  | .error (.expression "division" "Division by zero" _) => true
  | _ => false

/-! Helper lemmas. -/

theorem lookup_insertOverwrite {β : Type} (k : String) (v : β) :
    ∀ l : List (String × β), (insertOverwrite k v l).lookup k = some v := by
  intro l
  induction l with
  | nil => simp [insertOverwrite, List.lookup]
  | cons p rest ih =>
      obtain ⟨k', v'⟩ := p
      by_cases h : k' = k
      · subst h
        simp [insertOverwrite, List.lookup]
      · have h2 : k ≠ k' := fun e => h e.symm
        have h3 : (k == k') = false := beq_eq_false_iff_ne.mpr h2
        simp [insertOverwrite, List.lookup, h, h2, h3, ih]

/-! Claim theorems. -/

/-- C1: every chain produced by `plug_and_sort_chain` from active global
interceptors, active directive interceptors and a terminal executor has
descending priorities on adjacent non-terminal elements (`priority(a) ≥
priority(b)` whenever `a` immediately precedes `b` before the terminal),
and the terminal is the last element. -/
theorem C1_plug_and_sort_chain_ordered (g : List ActiveGlobalInterceptor)
    (d : List ActiveDirectiveInterceptor) (t : ActiveInterceptor) :
    List.Chain' (fun a b => b.priority ≤ a.priority)
        (plug_and_sort_chain g d t).dropLast ∧
      (plug_and_sort_chain g d t).getLast? = some t := by
  unfold plug_and_sort_chain
  constructor
  · have hdrop :
        (List.insertionSort chainOrder
            (g.map ActiveInterceptor.global ++ d.map ActiveInterceptor.directive) ++
          [t]).dropLast =
          List.insertionSort chainOrder
            (g.map ActiveInterceptor.global ++ d.map ActiveInterceptor.directive) := by
      simp
    rw [hdrop]
    exact (List.sorted_insertionSort chainOrder _).chain'
  · simp

/-- C1 witness: the theorem applied to a one-element global list and a
terminal executor. -/
theorem C1_plug_and_sort_chain_ordered_witness :
    List.Chain' (fun a b => b.priority ≤ a.priority)
        (plug_and_sort_chain [⟨prodGate, prodGate.defaultConfig, "prod-gate"⟩] []
          (doneInterceptor resultOne)).dropLast ∧
      (plug_and_sort_chain [⟨prodGate, prodGate.defaultConfig, "prod-gate"⟩] []
          (doneInterceptor resultOne)).getLast? = some (doneInterceptor resultOne) :=
  C1_plug_and_sort_chain_ordered _ _ _

/-- C8: consulting the chain cache twice under the same key (same
definition name, same argument count, no intervening invalidation) yields
identical chains — the second consultation returns what the first one
produced, whatever `build_target_chain` would have built the second
time. -/
theorem C8_chain_cache_returns_first_build (cache : List (String × List ActiveInterceptor))
    (defName : String) (argCount : Nat) (built1 built2 : List ActiveInterceptor) :
    (chain_from_cache (chain_from_cache cache (cache_key defName argCount) built1).2
        (cache_key defName argCount) built2).1 =
      (chain_from_cache cache (cache_key defName argCount) built1).1 := by
  cases h : cache.lookup (cache_key defName argCount) with
  | some cached => simp [chain_from_cache, h]
  | none => simp [chain_from_cache, h, lookup_insertOverwrite]

/-- C8 witness: on an empty cache, the second consultation under the key
of `deploy` with zero arguments returns the first build even though the
second build differs. -/
theorem C8_chain_cache_returns_first_build_witness :
    (chain_from_cache
        (chain_from_cache [] (cache_key "deploy" 0) [doneInterceptor resultOne]).2
        (cache_key "deploy" 0) []).1 = [doneInterceptor resultOne] :=
  (C8_chain_cache_returns_first_build [] "deploy" 0 [doneInterceptor resultOne] []).trans rfl

/-- C10: with dry-run disabled, a failure of the OS to spawn the process
makes `execute_command` return `Ok` — output `None`, exit code `None`, a
`system_error` metadata entry — and `execute_command` never returns an
`Err` for any spawn outcome. -/
theorem C10_spawn_failure_is_ok (cmd : String) (ctx : ExecutionContext) (e : String)
    (h : ctx.dryRun = false) :
    execute_command (.failure e) cmd ctx =
        .ok { output := none, exitCode := none,
              metadata := [("command", cmd), ("system_error", e)] } ∧
      ∀ spawn : SpawnOutcome, (execute_command spawn cmd ctx).isOk = true := by
  constructor
  · simp [execute_command, h]
  · intro spawn
    cases spawn <;> simp [execute_command, h, Except.isOk, Except.toBool]

theorem validate_global_priority_isOk_eq (p : Int) :
    (validate_global_priority p).isOk =
      ([CRITICAL_SYSTEM, GLOBAL_HIGH, GLOBAL_NORMAL, GLOBAL_SUPPORT, MONITORING].any
        fun range => range.containsInt p) := by
  unfold validate_global_priority
  cases h : ([CRITICAL_SYSTEM, GLOBAL_HIGH, GLOBAL_NORMAL, GLOBAL_SUPPORT,
      MONITORING].any fun range => range.containsInt p) <;>
    simp [h, Except.isOk, Except.toBool]

theorem validate_directive_priority_isOk_eq (p : Int) :
    (validate_directive_priority p).isOk =
      ([DIRECTIVE_HIGH, DIRECTIVE_NORMAL, DIRECTIVE_SUPPORT].any
        fun range => range.containsInt p) := by
  unfold validate_directive_priority
  cases h : ([DIRECTIVE_HIGH, DIRECTIVE_NORMAL, DIRECTIVE_SUPPORT].any
      fun range => range.containsInt p) <;>
    simp [h, Except.isOk, Except.toBool]

/-- C3: registering a global interceptor whose default priority is 4000 (a
directive band) fails, registering a directive interceptor with priority
6000 (a global band) fails, and in general priority validation — hence
registration, whose only failure is validation — succeeds exactly on the
reserved bands of the interceptor's category. -/
theorem C3_priority_band_validation :
    (validate_global_priority 4000).isOk = false ∧
      (validate_directive_priority 6000).isOk = false ∧
      (∀ p : Int, (validate_global_priority p).isOk = true ↔
        ((9000 ≤ p ∧ p < 10000) ∨ (8000 ≤ p ∧ p < 9000) ∨ (5000 ≤ p ∧ p < 7000) ∨
          (1000 ≤ p ∧ p < 3000) ∨ (0 ≤ p ∧ p < 500))) ∧
      (∀ p : Int, (validate_directive_priority p).isOk = true ↔
        ((7000 ≤ p ∧ p < 8000) ∨ (3000 ≤ p ∧ p < 5000) ∨ (500 ≤ p ∧ p < 1000))) ∧
      (∀ (m : GlobalInterceptorManager) (itc : GlobalInterceptorDef),
        (GlobalInterceptorManager.register m itc).1.isOk = true ↔
          (validate_global_priority itc.defaultConfig.priority).isOk = true) ∧
      (∀ (m : DirectiveInterceptorManager) (itc : DirectiveInterceptorDef),
        (DirectiveInterceptorManager.register m itc).1.isOk = true ↔
          (validate_directive_priority itc.priority).isOk = true) := by
  refine ⟨rfl, rfl, ?_, ?_, ?_, ?_⟩
  · intro p
    rw [validate_global_priority_isOk_eq]
    simp [PriorityRange.containsInt, CRITICAL_SYSTEM, GLOBAL_HIGH, GLOBAL_NORMAL,
      GLOBAL_SUPPORT, MONITORING]
  · intro p
    rw [validate_directive_priority_isOk_eq]
    simp [PriorityRange.containsInt, DIRECTIVE_HIGH, DIRECTIVE_NORMAL, DIRECTIVE_SUPPORT]
  · intro m itc
    unfold GlobalInterceptorManager.register
    cases h : validate_global_priority itc.defaultConfig.priority <;>
      simp [h, Except.isOk, Except.toBool]
  · intro m itc
    unfold DirectiveInterceptorManager.register
    cases h : validate_directive_priority itc.priority <;>
      simp [h, Except.isOk, Except.toBool]

/-- C3 witness: priority 9500 (inside `CRITICAL_SYSTEM`) validates for the
global category, by the theorem's band characterisation. -/
theorem C3_priority_band_validation_witness :
    (validate_global_priority 9500).isOk = true :=
  (C3_priority_band_validation.2.2.1 9500).mpr (Or.inl (by omega))

/-- C4 counterexample: with a registry that knows exactly the definition
`deploy`, executing an unknown name yields a generic `ExecutionError`
whose message neither is a `DefinitionNotFound` value (no such variant
exists in `LoomError`) nor lists the known name `deploy`. -/
theorem C4_counterexample :
    resolve_definition lcDeploy "does-not-exist" =
        .error (LoomError.execution "Cannot find the definition: 'does-not-exist'") ∧
      lcDeploy.knownNames = ["deploy"] ∧
      strContainsSub "Cannot find the definition: 'does-not-exist'" "deploy" = false :=
  ⟨rfl, rfl, by decide⟩

/-- C4 (amended): executing a definition name the registry cannot resolve
returns an `ExecutionError` with message `Cannot find the definition:
'<name>'` — an error value, never a panic — but it does not list the known
definition names and the error taxonomy has no `DefinitionNotFound`
variant. -/
theorem C4_unknown_definition_execution_error (lc : LoomContext) (nm : String)
    (h : lc.find_definition nm = none) :
    resolve_definition lc nm =
      .error (LoomError.execution ("Cannot find the definition: '" ++ nm ++ "'")) := by
  unfold resolve_definition
  rw [h]

/-- C4 witness: the amended theorem applied to the `deploy`-only registry
and the name `does-not-exist`. -/
theorem C4_unknown_definition_execution_error_witness :
    resolve_definition lcDeploy "does-not-exist" =
      .error (LoomError.execution ("Cannot find the definition: '" ++
        "does-not-exist" ++ "'")) :=
  C4_unknown_definition_execution_error lcDeploy "does-not-exist" rfl

/-- C9: when priority validation fails, `register` on the global manager,
`configure` on the global manager, and `register` on the directive manager
all return the error with the manager state — interceptor map, config map,
override map — exactly as before the call. -/
theorem C9_failed_validation_leaves_manager_unchanged :
    (∀ (m : GlobalInterceptorManager) (itc : GlobalInterceptorDef),
      (validate_global_priority itc.defaultConfig.priority).isOk = false →
      (GlobalInterceptorManager.register m itc).2 = m ∧
        (GlobalInterceptorManager.register m itc).1.isOk = false) ∧
    (∀ (m : GlobalInterceptorManager) (nm : String) (cfg : GlobalInterceptorConfig),
      (validate_global_priority cfg.priority).isOk = false →
      (GlobalInterceptorManager.configure m nm cfg).2 = m ∧
        (GlobalInterceptorManager.configure m nm cfg).1.isOk = false) ∧
    (∀ (m : DirectiveInterceptorManager) (itc : DirectiveInterceptorDef),
      (validate_directive_priority itc.priority).isOk = false →
      (DirectiveInterceptorManager.register m itc).2 = m ∧
        (DirectiveInterceptorManager.register m itc).1.isOk = false) := by
  refine ⟨?_, ?_, ?_⟩
  · intro m itc h
    unfold GlobalInterceptorManager.register
    cases hv : validate_global_priority itc.defaultConfig.priority with
    | error e => simp [hv, Except.isOk, Except.toBool]
    | ok u => rw [hv] at h; simp [Except.isOk, Except.toBool] at h
  · intro m nm cfg h
    unfold GlobalInterceptorManager.configure
    by_cases hc : (m.interceptors.lookup nm).isSome
    · cases hv : validate_global_priority cfg.priority with
      | error e => simp [hc, hv, Except.isOk, Except.toBool]
      | ok u => rw [hv] at h; simp [Except.isOk, Except.toBool] at h
    · simp [hc, Except.isOk, Except.toBool]
  · intro m itc h
    unfold DirectiveInterceptorManager.register
    cases hv : validate_directive_priority itc.priority with
    | error e => simp [hv, Except.isOk, Except.toBool]
    | ok u => rw [hv] at h; simp [Except.isOk, Except.toBool] at h

/-- C9 witness: registering `badGlobal` (priority 4000) into the empty
global manager fails and leaves the manager untouched, by the theorem. -/
theorem C9_failed_validation_leaves_manager_unchanged_witness :
    (GlobalInterceptorManager.register GlobalInterceptorManager.new badGlobal).2 =
        GlobalInterceptorManager.new ∧
      (GlobalInterceptorManager.register GlobalInterceptorManager.new badGlobal).1.isOk =
        false :=
  C9_failed_validation_leaves_manager_unchanged.1 GlobalInterceptorManager.new badGlobal rfl

/-- C2 counterexample: in the two-element chain of self-contained
(`need_chain() == false`) interceptors, the first returns the successful
result `resultOne`, yet the chain's result is the second interceptor's
`resultTwo` — the later interceptor runs and the earlier result is
discarded, contradicting the claimed short-circuit. -/
theorem C2_counterexample :
    ActiveInterceptor.need_chain (doneInterceptor resultOne) = false ∧
      launch_interceptor ictx0 (doneInterceptor resultOne)
          empty_execute_intercept_next = .ok resultOne ∧
      execute_chain ictx0 [doneInterceptor resultOne, doneInterceptor resultTwo] =
        .ok resultTwo ∧
      resultTwo ≠ resultOne :=
  ⟨rfl, rfl, rfl, by decide⟩

theorem execute_chain_loop_all_non_chain (ctx : InterceptorContextM) :
    ∀ (pre : List ActiveInterceptor) (lastI : ActiveInterceptor),
      (∀ ai ∈ pre, ai.need_chain = false ∧
        ∃ r, launch_interceptor ctx ai empty_execute_intercept_next = .ok r) →
      lastI.need_chain = false →
      execute_chain_loop ctx (pre ++ [lastI]) =
        launch_interceptor ctx lastI empty_execute_intercept_next := by
  intro pre
  induction pre with
  | nil =>
      intro lastI _ hlast
      rw [List.nil_append]
      unfold execute_chain_loop
      rw [hlast]
      cases hl : launch_interceptor ctx lastI empty_execute_intercept_next with
      | error e => simp [hl]
      | ok r => simp [hl]
  | cons a pre ih =>
      intro lastI hall hlast
      obtain ⟨hnc, r, hr⟩ := hall a (by simp)
      have hrest : ∀ ai ∈ pre, ai.need_chain = false ∧
          ∃ r, launch_interceptor ctx ai empty_execute_intercept_next = .ok r :=
        fun ai hai => hall ai (by simp [hai])
      rw [List.cons_append]
      unfold execute_chain_loop
      rw [hnc, hr]
      cases pre with
      | nil => simpa using ih lastI hrest hlast
      | cons b bs => simpa using ih lastI hrest hlast

/-- C2 (amended): a `need_chain() == false` interceptor's successful
result is the chain's result only when it sits at the last index; at any
earlier index the engine discards the `Ok` result and continues with the
next interceptor (an error still aborts the chain). Consequently, in a
chain of self-contained interceptors whose earlier members all succeed,
the chain's result is the launch of the LAST interceptor. -/
theorem C2_non_chain_result_comes_from_last (ctx : InterceptorContextM)
    (pre : List ActiveInterceptor) (lastI : ActiveInterceptor)
    (hall : ∀ ai ∈ pre, ai.need_chain = false ∧
      ∃ r, launch_interceptor ctx ai empty_execute_intercept_next = .ok r)
    (hlast : lastI.need_chain = false) :
    execute_chain ctx (pre ++ [lastI]) =
      launch_interceptor ctx lastI empty_execute_intercept_next := by
  unfold execute_chain
  have hne : (pre ++ [lastI]).isEmpty = false := by simp
  rw [hne]
  simpa using execute_chain_loop_all_non_chain ctx pre lastI hall hlast

/-- C2 witness: the amended theorem applied to the concrete two-element
chain of the counterexample. -/
theorem C2_non_chain_result_comes_from_last_witness :
    execute_chain ictx0 ([doneInterceptor resultOne] ++ [doneInterceptor resultTwo]) =
      launch_interceptor ictx0 (doneInterceptor resultTwo)
        empty_execute_intercept_next := by
  refine C2_non_chain_result_comes_from_last ictx0 [doneInterceptor resultOne]
    (doneInterceptor resultTwo) ?_ rfl
  intro ai hai
  rw [List.mem_singleton] at hai
  subst hai
  exact ⟨rfl, ⟨resultOne, rfl⟩⟩

theorem collectExcept_ok_spec {α β ε : Type} (f : α → Except ε β) :
    ∀ (xs : List α) (ys : List β), collectExcept f xs = .ok ys →
      ys.length = xs.length ∧
      ∀ i y, ys.get? i = some y → ∃ x, xs.get? i = some x ∧ f x = .ok y := by
  intro xs
  induction xs with
  | nil =>
      intro ys h
      unfold collectExcept at h
      injection h with h
      subst h
      simp
  | cons x xs ih =>
      intro ys h
      unfold collectExcept at h
      cases hf : f x with
      | error e => rw [hf] at h; cases h
      | ok y =>
          rw [hf] at h
          cases hc : collectExcept f xs with
          | error e => rw [hc] at h; cases h
          | ok ys' =>
              rw [hc] at h
              injection h with h
              subst h
              obtain ⟨hlen, hspec⟩ := ih ys' hc
              refine ⟨by simp [hlen], ?_⟩
              intro i z hz
              cases i with
              | zero =>
                  rw [List.get?_cons_zero] at hz
                  injection hz with hz
                  subst hz
                  exact ⟨x, rfl, hf⟩
              | succ i =>
                  rw [List.get?_cons_succ] at hz
                  obtain ⟨w, hw, hfw⟩ := hspec i z hz
                  exact ⟨w, by rw [List.get?_cons_succ]; exact hw, hfw⟩

theorem collectExcept_error_after_ok_prefix {α β ε : Type} (f : α → Except ε β) (E : ε)
    (bad : α) (hbad : f bad = .error E) :
    ∀ (pre rest : List α), (∀ x ∈ pre, (f x).isOk = true) →
      collectExcept f (pre ++ bad :: rest) = .error E := by
  intro pre
  induction pre with
  | nil =>
      intro rest _
      rw [List.nil_append]
      unfold collectExcept
      rw [hbad]
  | cons x xs ih =>
      intro rest hall
      rw [List.cons_append]
      unfold collectExcept
      have hx := hall x (by simp)
      cases hf : f x with
      | error e => rw [hf] at hx; simp [Except.isOk, Except.toBool] at hx
      | ok y => rw [ih rest fun z hz => hall z (by simp [hz])]

theorem stageChild_ok_shape (fuel : Nat) (lc : LoomContext) (ctx : ExecutionContext)
    (stmt : Statement) (a : ExecutionActivity)
    (h : ExecutionActivity.stageChild fuel lc ctx stmt = .ok a) :
    ∃ parts dirs pieces d,
      stmt = .command parts dirs ∧
      collectExcept (evalPartToString fuel lc ctx) parts = .ok pieces ∧
      lc.find_definition (String.join pieces) = some d ∧
      a = .job (String.join pieces) d.directives (d.body.map Block.toTarget) := by
  cases stmt with
  | call nm args dirs =>
      simp only [ExecutionActivity.stageChild] at h
      cases h
  | command parts dirs =>
      simp only [ExecutionActivity.stageChild] at h
      cases hp : collectExcept (evalPartToString fuel lc ctx) parts with
      | error e => rw [hp] at h; cases h
      | ok pieces =>
          rw [hp] at h
          dsimp only [] at h
          cases hd : lc.find_definition (String.join pieces) with
          | none => rw [hd] at h; cases h
          | some jd =>
              rw [hd] at h
              injection h with h
              exact ⟨parts, dirs, pieces, jd, rfl, hp, hd, h.symm⟩

/-- C5 counterexample: a stage whose only statement is a `Statement::Call`
to the resolvable job `build` does not produce a `Job` child as the claim
requires — `build_child` returns the structural error reserved, per the
claim, for non-call statements. -/
theorem C5_counterexample :
    ExecutionActivity.build_child 5 lcBuild execCtx0 (.stage stageWithCall) =
        .error (LoomError.execution "Tipo di statement non previsto per uno stage!") ∧
      lcBuild.find_definition "build" = some defBuild :=
  ⟨rfl, rfl⟩

/-- C5 (amended): `build_child` on a `Stage` produces one `Job` activity
per contained `Statement::Command` — its parts evaluated and stringified
into a name that must resolve to a `Definition` — and returns the
structural error for any statement inside the stage that is not a command
(in particular for `Statement::Call`, provided the statements before it
process successfully). -/
theorem C5_stage_builds_jobs_from_commands (fuel : Nat) (lc : LoomContext)
    (ctx : ExecutionContext) (s : BlockTarget) :
    (∀ children, ExecutionActivity.build_child fuel lc ctx (.stage s) = .ok children →
      children.length = s.commands.length ∧
      ∀ i a, children.get? i = some a →
        ∃ parts dirs pieces d,
          s.commands.get? i = some (.command parts dirs) ∧
          collectExcept (evalPartToString fuel lc ctx) parts = .ok pieces ∧
          lc.find_definition (String.join pieces) = some d ∧
          a = .job (String.join pieces) d.directives (d.body.map Block.toTarget)) ∧
      (∀ pre nm args dirs rest,
        s.commands = pre ++ (Statement.call nm args dirs) :: rest →
        (∀ stmt ∈ pre, (ExecutionActivity.stageChild fuel lc ctx stmt).isOk = true) →
        ExecutionActivity.build_child fuel lc ctx (.stage s) =
          .error (LoomError.execution "Tipo di statement non previsto per uno stage!")) := by
  constructor
  · intro children hch
    simp only [ExecutionActivity.build_child] at hch
    obtain ⟨hlen, hspec⟩ :=
      collectExcept_ok_spec (ExecutionActivity.stageChild fuel lc ctx) s.commands
        children hch
    refine ⟨hlen, ?_⟩
    intro i a ha
    obtain ⟨x, hx, hfx⟩ := hspec i a ha
    obtain ⟨parts, dirs, pieces, d, rfl, hp, hd, haj⟩ :=
      stageChild_ok_shape fuel lc ctx x a hfx
    exact ⟨parts, dirs, pieces, d, hx, hp, hd, haj⟩
  · intro pre nm args dirs rest hcmds hpre
    simp only [ExecutionActivity.build_child]
    rw [hcmds]
    exact collectExcept_error_after_ok_prefix (ExecutionActivity.stageChild fuel lc ctx)
      (LoomError.execution "Tipo di statement non previsto per uno stage!")
      (Statement.call nm args dirs) rfl pre rest hpre

/-- C5 witness: the amended theorem's error half applied to the concrete
call-bearing stage and the `build`-only registry. -/
theorem C5_stage_builds_jobs_from_commands_witness :
    ExecutionActivity.build_child 5 lcBuild execCtx0 (.stage stageWithCall) =
      .error (LoomError.execution "Tipo di statement non previsto per uno stage!") :=
  (C5_stage_builds_jobs_from_commands 5 lcBuild execCtx0 stageWithCall).2
    [] "build" [] [] [] rfl (fun stmt h => absurd h (List.not_mem_nil stmt))

/-- C6 counterexample: for the operand pair (`String("a")`, `Number(0)`)
the claim's universally quantified statement fails — `Divide` with a zero
right operand returns the generic unsupported-operator error, not the
dedicated division-by-zero error. -/
theorem C6_counterexample :
    evaluate_literal_binary_op (.string "a") .divide (.number 0) none =
        .error (.expression "binary_operation"
          "Operator Divide not supported between Discriminant(0) and Discriminant(1)"
          Position.default) ∧
      isDivisionByZeroError
        (evaluate_literal_binary_op (.string "a") .divide (.number 0) none) = false :=
  ⟨rfl, rfl⟩

/-- C6 (amended): `Divide` with a zero right operand returns the dedicated
division-by-zero error when the left operand is a numeric literal of the
same kind (integer/integer or float/float); for every other left operand
it returns the generic unsupported-operator error — in all cases an error,
never a panic and never a NaN or infinite value. -/
theorem C6_divide_by_zero_dedicated_error :
    (∀ (a : Int) (pos : Option Position),
      evaluate_literal_binary_op (.number a) .divide (.number 0) pos =
        .error (.expression "division" "Division by zero" (pos.getD Position.default))) ∧
      (∀ (q : Rat) (pos : Option Position),
        evaluate_literal_binary_op (.float q) .divide (.float 0) pos =
          .error (.expression "division" "Division by zero" (pos.getD Position.default))) ∧
      (∀ (l : LiteralValue) (pos : Option Position),
        (evaluate_literal_binary_op l .divide (.number 0) pos).isOk = false ∧
          (evaluate_literal_binary_op l .divide (.float 0) pos).isOk = false) := by
  refine ⟨?_, ?_, ?_⟩
  · intro a pos
    simp [evaluate_literal_binary_op]
  · intro q pos
    simp [evaluate_literal_binary_op]
  · intro l pos
    cases l <;> simp [evaluate_literal_binary_op, Except.isOk, Except.toBool]

/-- C6 witness: `1 / 0` on integers, by the theorem. -/
theorem C6_divide_by_zero_dedicated_error_witness :
    evaluate_literal_binary_op (.number 1) .divide (.number 0) none =
      .error (.expression "division" "Division by zero" Position.default) :=
  C6_divide_by_zero_dedicated_error.1 1 none

/-- C7: (absence) in a context where neither `LOOM_ENV` nor `ENVIRONMENT`
is set (environment resolves to the default `development`), no interceptor
returned by `get_active` carries the activation condition
`Environment(["production"])`; (presence) a registered interceptor whose
default config is enabled with exactly that condition is returned by
`get_active` when `LOOM_ENV` resolves to `production`. -/
theorem C7_environment_activation :
    (∀ (pf : PlatformModel) (m : GlobalInterceptorManager) (ctx : ExecutionContext)
      (l : List ActiveGlobalInterceptor),
      GlobalInterceptorManager.get_active pf m ctx = some l →
      ctx.envVars.lookup "LOOM_ENV" = none →
      ctx.envVars.lookup "ENVIRONMENT" = none →
      ∀ a ∈ l, ActivationCondition.environment ["production"] ∉ a.config.conditions) ∧
      (∀ (pf : PlatformModel) (itc : GlobalInterceptorDef) (ctx : ExecutionContext),
        itc.defaultConfig.enabled = true →
        itc.defaultConfig.conditions = [.environment ["production"]] →
        ctx.envVars.lookup "LOOM_ENV" = some "production" →
        (validate_global_priority itc.defaultConfig.priority).isOk = true →
        GlobalInterceptorManager.get_active pf
            (GlobalInterceptorManager.register GlobalInterceptorManager.new itc).2 ctx =
          some [⟨itc, itc.defaultConfig, itc.name⟩]) := by
  constructor
  · intro pf m ctx l hga h1 h2 a hal hin
    unfold GlobalInterceptorManager.get_active at hga
    cases hm : m.interceptors.mapM fun p =>
        (m.configs.lookup p.1).map fun cfg0 =>
          (p.1, p.2,
            match m.userOverrides.lookup p.1 with
            | some userEnabled => { cfg0 with enabled := userEnabled }
            | none => cfg0) with
    | none => rw [hm] at hga; cases hga
    | some entries =>
        rw [hm] at hga
        have hl : l = List.insertionSort activeGlobalOrder
            ((entries.filter fun e => should_activate pf e.2.2 ctx).map fun e =>
              ({ interceptor := e.2.1, config := e.2.2, name := e.1 } :
                ActiveGlobalInterceptor)) := by
          cases hga
          rfl
        subst hl
        have hmem : a ∈ (entries.filter fun e => should_activate pf e.2.2 ctx).map fun e =>
            ({ interceptor := e.2.1, config := e.2.2, name := e.1 } :
              ActiveGlobalInterceptor) :=
          ((List.perm_insertionSort activeGlobalOrder _).mem_iff).mp hal
        obtain ⟨e, he, rfl⟩ := List.mem_map.mp hmem
        have hact : should_activate pf e.2.2 ctx = true := (List.mem_filter.mp he).2
        unfold should_activate at hact
        rw [Bool.and_eq_true] at hact
        have hcond := hact.2
        have hev : evaluate_condition pf (.environment ["production"]) ctx = true :=
          List.all_eq_true.mp hcond _ hin
        unfold evaluate_condition currentEnvironment at hev
        rw [h1, h2] at hev
        simp at hev
  · intro pf itc ctx hen hcond henv hval
    have hreg : (GlobalInterceptorManager.register GlobalInterceptorManager.new itc).2 =
        ⟨[(itc.name, itc)], [(itc.name, itc.defaultConfig)], []⟩ := by
      unfold GlobalInterceptorManager.register GlobalInterceptorManager.new
      cases hv : validate_global_priority itc.defaultConfig.priority with
      | error e => rw [hv] at hval; simp [Except.isOk, Except.toBool] at hval
      | ok u => simp [hv, insertOverwrite]
    rw [hreg]
    unfold GlobalInterceptorManager.get_active
    simp [List.mapM, List.mapM.loop, List.lookup, beq_self_eq_true, should_activate,
      hen, hcond, evaluate_condition, currentEnvironment, henv, List.filter, List.all,
      List.insertionSort, List.orderedInsert]

/-- C7 witness: the presence half of the theorem applied to the concrete
`prod-gate` interceptor, the fixture platform model and the
`LOOM_ENV=production` context. -/
theorem C7_environment_activation_witness :
    GlobalInterceptorManager.get_active pf0
        (GlobalInterceptorManager.register GlobalInterceptorManager.new prodGate).2
        ctxProd =
      some [⟨prodGate, prodGate.defaultConfig, prodGate.name⟩] :=
  C7_environment_activation.2 pf0 prodGate ctxProd rfl rfl rfl rfl

/-- C10 witness: the theorem applied to a concrete command, the fixture
context (dry-run off) and a concrete OS error message. -/
theorem C10_spawn_failure_is_ok_witness :
    execute_command (.failure "No such file or directory (os error 2)") "ls" execCtx0 =
      .ok { output := none, exitCode := none,
            metadata := [("command", "ls"),
              ("system_error", "No such file or directory (os error 2)")] } :=
  (C10_spawn_failure_is_ok "ls" execCtx0 "No such file or directory (os error 2)" rfl).1

end Loom
